import Mathlib

/-!
Verification development for the docstring type-inference engine of
`vttools/scrape.py`: the type lexicon and normalizer, the optionality and
enum extractors, and the parameter/return port extractors
(`define_input_ports`, `define_output_ports`).

The Python source is shallowly embedded: each Python helper becomes an
executable Lean definition of the same name (camel-cased), strings are
`String`/`List Char`, Python `None`-signalled failure becomes `Option`,
and raised exceptions become `Except ScrapeErr`.  The regular expressions
of `_RE_DICT` are transcribed into a small regex syntax `RE` and run by a
fuel-indexed backtracking matcher; all `(?i)` patterns are matched against
the lower-cased input with lower-cased literals, which is equivalent for
the ASCII-only patterns involved.
-/

namespace VTTools

/-- Characters counted as Python `\w` word characters (ASCII, as used by
the word-boundary searches of `_OR_REGEX`, `_OF_REGEX`, `_COMMA_REGEX`). -/
def isWordChar (c : Char) : Bool :=
  c.isAlpha || c.isDigit || c = '_'

/-- Strip every character of `junk` from both ends of a character list,
modelling Python `str.strip(junk)`. -/
def stripChars (cs : List Char) (junk : List Char) : List Char :=
  ((cs.dropWhile junk.contains).reverse.dropWhile junk.contains).reverse

/-- The characters stripped by Python `str.strip()` with no argument. -/
def pyWsChars : List Char := [' ', '\t', '\n', '\r', '\x0b', '\x0c']

/-- Python `str.strip()` on a `String`. -/
def pyStrip (s : String) : String :=
  String.mk (stripChars s.toList pyWsChars)

/-- Split a character list at every occurrence of `c`
(Python `str.split(c)`; always returns at least one piece). -/
def splitCharAux (c : Char) : List Char → List (List Char)
  | [] => [[]]
  | a :: rest =>
    match splitCharAux c rest with
    | h :: t => if a = c then [] :: h :: t else (a :: h) :: t
    | [] => [[a]]

/-- Python `s.split(c)` for a one-character separator. -/
def pySplitChar (c : Char) (s : String) : List String :=
  (splitCharAux c s.toList).map String.mk

/-- ASCII lower-casing of a string. -/
def strLower (s : String) : String :=
  String.mk (s.toList.map Char.toLower)

/-- `isPre l m`: `l` is an initial segment of `m` (Boolean helper for the
substring searches). -/
def isPre : List Char → List Char → Bool
  | [], _ => true
  | _ :: _, [] => false
  | a :: l, b :: m => a = b && isPre l m

/-- Index of the first occurrence of `needle` as a contiguous sublist of
`hay`, if any (Python `str.find`). -/
def findSub (needle : List Char) : List Char → Option Nat
  | [] => if needle = [] then some 0 else none
  | c :: rest =>
    if isPre needle (c :: rest) then some 0
    else (findSub needle rest).map (· + 1)

/-- Python `s.split(sep, 1)` when `sep` occurs in `s`; when `sep` is
absent the pair `(s, "")` is returned (in the source every such split is
guarded by a regex search that guarantees an occurrence). -/
def splitFirstSub (sep : String) (s : String) : String × String :=
  match findSub sep.toList s.toList with
  | some i => (String.mk (s.toList.take i), String.mk (s.toList.drop (i + sep.length)))
  | none => (s, "")

/-- Search for the whole word `w` in `cs` with `\b` boundaries on both
sides, as `re.search(r'\bor\b', ...)` / `re.search(r'\bof\b', ...)` do;
`prev` is the character immediately before the current position. -/
def searchWordAux (w : List Char) (prev : Option Char) : List Char → Bool
  | [] =>
    w = [] && (match prev with | some p => !isWordChar p | none => true)
  | c :: rest =>
    (isPre w (c :: rest)
       && (match prev with | some p => !isWordChar p | none => true)
       && (match (c :: rest).drop w.length with
           | [] => true
           | d :: _ => !isWordChar d))
    || searchWordAux w (some c) rest

/-- Whole-word search for `w` anywhere in `s`. -/
def searchWord (w : String) (s : String) : Bool :=
  searchWordAux w.toList none s.toList

/-- Search for `_COMMA_REGEX = re.compile(r'\b, ?\b')`: a comma preceded
by a word character and followed (after at most one space) by a word
character. -/
def searchCommaSepAux (prev : Option Char) : List Char → Bool
  | [] => false
  | c :: rest =>
    (c = ','
       && (match prev with | some p => isWordChar p | none => false)
       && (match rest with
           | [] => false
           | d :: rest2 =>
             isWordChar d
               || (d = ' ' && (match rest2 with
                               | [] => false
                               | e :: _ => isWordChar e))))
    || searchCommaSepAux (some c) rest

/-- `_COMMA_REGEX` search over a string. -/
def searchCommaSep (s : String) : Bool :=
  searchCommaSepAux none s.toList

/-! ### A small regex syntax and matcher for the `_RE_DICT` patterns -/

/-- Regex syntax: the constructs used by the patterns in `_RE_DICT`.
`cls` is a character class given by a predicate; `bos`/`eos` are the
`^`/`$` anchors (no MULTILINE flag is set in the source). -/
inductive RE where
  | eps : RE
  | ch : Char → RE
  | any : RE
  | cls : (Char → Bool) → RE
  | seq : RE → RE → RE
  | alt : RE → RE → RE
  | star : RE → RE
  | opt : RE → RE
  | bos : RE
  | eos : RE

/-- Size of a regex, used to compute a sufficient fuel bound. -/
def reSize : RE → Nat
  | .eps => 1
  | .ch _ => 1
  | .any => 1
  | .cls _ => 1
  | .bos => 1
  | .eos => 1
  | .seq a b => reSize a + reSize b + 1
  | .alt a b => reSize a + reSize b + 1
  | .star a => reSize a + 1
  | .opt a => reSize a + 1

/-- Backtracking matcher in continuation-passing style.  `full` is the
length of the whole subject (so `bos` holds exactly at the start), `k` is
the continuation on the remaining input.  The fuel only bounds the
recursion; every `star` body in the transcribed patterns consumes at
least one character, so the fuel chosen in `reSearch` never runs out on
a reachable search. -/
def reMatch : Nat → Nat → RE → List Char → (List Char → Bool) → Bool
  | 0, _, _, _, _ => false
  | _ + 1, _, .eps, s, k => k s
  | _ + 1, _, .ch c, s, k =>
    match s with
    | [] => false
    | a :: rest => a = c && k rest
  | _ + 1, _, .any, s, k =>
    match s with
    | [] => false
    | a :: rest => a ≠ '\n' && k rest
  | _ + 1, _, .cls p, s, k =>
    match s with
    | [] => false
    | a :: rest => p a && k rest
  | f + 1, n, .seq r1 r2, s, k => reMatch f n r1 s (fun s2 => reMatch f n r2 s2 k)
  | f + 1, n, .alt r1 r2, s, k => reMatch f n r1 s k || reMatch f n r2 s k
  | f + 1, n, .star r, s, k =>
    reMatch f n r s (fun s2 => reMatch f n (.star r) s2 k) || k s
  | f + 1, n, .opt r, s, k => reMatch f n r s k || k s
  | _ + 1, n, .bos, s, k => s.length = n && k s
  | _ + 1, _, .eos, s, k => s.isEmpty && k s

/-- `re.search`: try a match starting at every position of `cs`. -/
def reSearch (r : RE) (cs : List Char) : Bool :=
  let n := cs.length
  (List.range (n + 1)).any fun p =>
    reMatch ((reSize r + 1) * (n + 2)) n r (cs.drop p) (fun _ => true)

/-- Literal string regex. -/
def lit (s : String) : RE :=
  s.toList.foldr (fun c r => RE.seq (RE.ch c) r) RE.eps

/-- Sequence of a list of regexes. -/
def seqs (l : List RE) : RE :=
  l.foldr RE.seq RE.eps

/-- Alternation of a non-empty list of regexes. -/
def alts : List RE → RE
  | [] => RE.eps
  | [r] => r
  | r :: rest => RE.alt r (alts rest)

/-- Character class from an explicit character list. -/
def chs (l : List Char) : RE :=
  RE.cls l.contains

/-- One-or-more repetition. -/
def rePlus (r : RE) : RE :=
  RE.seq r (RE.star r)

/-! ### The `_RE_DICT` patterns

Each pattern of `_RE_DICT` in `scrape.py` is transcribed below with its
literals lower-cased; `reDICTSearch` matches against the lower-cased
input, which implements the `(?i)` flag for these ASCII patterns. -/

/-- `((np|numpy)\.)?` -/
def reNpDot : RE := RE.opt (seqs [RE.alt (lit "np") (lit "numpy"), RE.ch '.'])

/-- `^(?i)(any|object)$` -/
def reObject : RE := seqs [RE.bos, RE.alt (lit "any") (lit "object"), RE.eos]

/-- `^(?i).*(((np|numpy)\.)?(nd)?array(_|-| |s)?(like)?)` -/
def reArray : RE :=
  seqs [RE.bos, RE.star RE.any, reNpDot, RE.opt (lit "nd"), lit "array",
        RE.opt (chs ['_', '-', ' ', 's']), RE.opt (lit "like")]

/-- `[A-Z0-9.]+,? *` (lower-cased under `(?i)`) -/
def reShapeItem : RE :=
  seqs [rePlus (RE.cls fun c => c.isLower || c.isDigit || c = '.'),
        RE.opt (RE.ch ','), RE.star (RE.ch ' ')]

/-- `^(?i)(\((([A-Z0-9.]+,? *){2} ?)\))? *(((np|numpy)\.)?matrix(_|-| )?(like)?)$` -/
def reMatrix : RE :=
  seqs [RE.bos,
        RE.opt (seqs [RE.ch '(', reShapeItem, reShapeItem, RE.opt (RE.ch ' '), RE.ch ')']),
        RE.star (RE.ch ' '), reNpDot, lit "matrix",
        RE.opt (chs ['_', '-', ' ']), RE.opt (lit "like"), RE.eos]

/-- `^(?i)list(-|_| )?(like)?` -/
def reListP : RE :=
  seqs [RE.bos, lit "list", RE.opt (chs ['-', '_', ' ']), RE.opt (lit "like")]

/-- `(?i)tuple(-|_| )?(like)?` -/
def reTupleP : RE :=
  seqs [lit "tuple", RE.opt (chs ['-', '_', ' ']), RE.opt (lit "like")]

/-- `(?i)sequence(-|_| )?(like)?` -/
def reSeqP : RE :=
  seqs [lit "sequence", RE.opt (chs ['-', '_', ' ']), RE.opt (lit "like")]

/-- `^(?i)((np|numpy)[. ])?d(ata)?[- _]?type[-_ ]?(like|code|specifier)?` -/
def reDtype : RE :=
  seqs [RE.bos, RE.opt (seqs [RE.alt (lit "np") (lit "numpy"), chs ['.', ' ']]),
        RE.ch 'd', RE.opt (lit "ata"), RE.opt (chs ['-', ' ', '_']), lit "type",
        RE.opt (chs ['-', '_', ' ']),
        RE.opt (alts [lit "like", lit "code", lit "specifier"])]

/-- `^(?i)bool(ean)?$` -/
def reBool : RE := seqs [RE.bos, lit "bool", RE.opt (lit "ean"), RE.eos]

/-- `^(?i)file(name)?[ -_]*(like|handle|object)*$`.  Note `[ -_]` is the
character range 0x20 to 0x5f, which under `(?i)` also accepts the
lower-case letters (their upper-case forms lie in the range); on the
lower-cased subject this is `0x20 <= c <= 0x5f` or a lower-case letter. -/
def reFile : RE :=
  seqs [RE.bos, lit "file", RE.opt (lit "name"),
        RE.star (RE.cls fun c => (' ' ≤ c && c ≤ '_') || c.isLower),
        RE.star (alts [lit "like", lit "handle", lit "object"]), RE.eos]

/-- `^(?i)(scalar|number)` -/
def reScalar : RE := seqs [RE.bos, RE.alt (lit "scalar") (lit "number")]

/-- `^(?i)(((np|numpy)\.)?float(16|32|64|128)?|double|single)` -/
def reFloat : RE :=
  seqs [RE.bos,
        RE.alt (seqs [reNpDot, lit "float",
                      RE.opt (alts [lit "16", lit "32", lit "64", lit "128"])])
               (RE.alt (lit "double") (lit "single"))]

/-- `^(?i)((np|numpy)\.)?u?int(eger)?(8|16|32|64)?( value|s)?$` -/
def reInt : RE :=
  seqs [RE.bos, reNpDot, RE.opt (RE.ch 'u'), lit "int", RE.opt (lit "eger"),
        RE.opt (alts [lit "8", lit "16", lit "32", lit "64"]),
        RE.opt (RE.alt (lit " value") (RE.ch 's')), RE.eos]

/-- `^(?i)complex$` -/
def reComplexP : RE := seqs [RE.bos, lit "complex", RE.eos]

/-- `^(?i)dict(ionary)?$` -/
def reDictP : RE := seqs [RE.bos, lit "dict", RE.opt (lit "ionary"), RE.eos]

/-- `^(?i)str(ing)?([-]?like)?` -/
def reStrP : RE :=
  seqs [RE.bos, lit "str", RE.opt (lit "ing"),
        RE.opt (seqs [RE.opt (RE.ch '-'), lit "like"])]

/-- `^(?i)(func(tion)?|callable)` -/
def reCallable : RE :=
  seqs [RE.bos, RE.alt (seqs [lit "func", RE.opt (lit "tion")]) (lit "callable")]

/-- The `_RE_DICT` table keyed on category name. -/
def reDICT : List (String × RE) :=
  [("object", reObject), ("array", reArray), ("matrix", reMatrix),
   ("list", reListP), ("tuple", reTupleP), ("seq", reSeqP),
   ("dtype", reDtype), ("bool", reBool), ("file", reFile),
   ("scalar", reScalar), ("float", reFloat), ("int", reInt),
   ("complex", reComplexP), ("dict", reDictP), ("str", reStrP),
   ("callable", reCallable)]

/-- `_RE_DICT[n].search(t)` viewed as a Boolean, with the `(?i)` flag
realised by lower-casing the subject. -/
def reDICTSearch (n : String) (t : String) : Bool :=
  match reDICT.lookup n with
  | some r => reSearch r (t.toList.map Char.toLower)
  | none => false

/-- `precedence_list` from `scrape.py`, in source order. -/
def precedenceList : List String :=
  ["list", "tuple", "seq", "dict", "array", "matrix", "dtype", "str",
   "scalar", "complex", "float", "int", "bool", "file", "callable", "object"]

/-- `sig_map`: canonical category name to VisTrails port signature.  The
source is a `verbosedict` raising on a missing key; every key reachable
from the normalizer is present, so a total function suffices. -/
def sigMap (n : String) : String :=
  if n = "object" then "basic:Variant"
  else if n = "array" then "basic:Variant"
  else if n = "matrix" then "basic:Variant"
  else if n = "list" then "basic:List"
  else if n = "tuple" then "basic:List"
  else if n = "seq" then "basic:List"
  else if n = "dtype" then "basic:String"
  else if n = "bool" then "basic:Boolean"
  else if n = "file" then "basic:File"
  else if n = "scalar" then "basic:Float"
  else if n = "float" then "basic:Float"
  else if n = "int" then "basic:Integer"
  else if n = "complex" then "basic:Variant"
  else if n = "dict" then "basic:Dictionary"
  else if n = "str" then "basic:String"
  else if n = "callable" then "basic:Variant"
  else "basic:MISSING"

/-! ### The type normalizer -/

/-- The junk characters stripped at the head of `_normalize_type`
(the source applies `strip` and then `rstrip` with the same set). -/
def junkChars : List Char := [' ', '.', '!', '?', '-', '_', '\t', '\x60']

/-- `_type_precedence` after both sides have been normalized: pick the
side that sorts earlier in `precedence_list`. -/
def typePrecPick : Option String → Option String → Option String
  | none, r => r
  | some l, none => some l
  | some l, some r =>
    if precedenceList.indexOf l < precedenceList.indexOf r then some l else some r

/-- `_of_proc` after the left side has been normalized: keep it only if
it is a container category. -/
def ofPick : Option String → Option String
  | some l =>
    if l = "list" ∨ l = "tuple" ∨ l = "array" ∨ l = "matrix" ∨ l = "seq"
    then some l else none
  | none => none

/-- `_normalize_type`, fuelled.  Every recursive call is on a string
strictly shorter than the current (stripped) one, so fuel
`length + 1` at the entry point is sufficient. -/
def normTypeF : Nat → String → Option String
  | 0, _ => none
  | fuel + 1, t0 =>
    let t := String.mk (stripChars t0.toList junkChars)
    if searchWord "or" t then
      let (l, r) := splitFirstSub "or" t
      typePrecPick (normTypeF fuel l) (normTypeF fuel r)
    else if searchWord "of" t then
      let (l, _r) := splitFirstSub "of" t
      ofPick (normTypeF fuel l)
    else
      match precedenceList.find? (fun n => reDICTSearch n t) with
      | some n => some n
      | none =>
        if searchCommaSep t then
          let (l, r) := splitFirstSub "," t
          typePrecPick (normTypeF fuel l) (normTypeF fuel r)
        else none

/-- `_normalize_type`: `none` models the Python `None` failure signal. -/
def normalizeType (t : String) : Option String :=
  normTypeF (t.length + 1) t

/-! ### Optionality extractor -/

/-- Step back from index `j` over characters of `cs` satisfying `p`. -/
def backWhile (p : Char → Bool) (cs : List Char) : Nat → Nat
  | 0 => 0
  | j + 1 =>
    match cs.get? j with
    | some c => if p c then backWhile p cs j else j + 1
    | none => j + 1

/-- The lazy-group semantics of `_OPTIONAL_RE = '(.*?),? *(\(?optional\)?)'`
under `re.search`: a match exists iff the subject contains `optional`;
group 1 is the prefix before the earliest start of `,? *\(?optional`,
computed from the first occurrence of `optional` by stepping back over
one optional `(`, any spaces, and one optional `,`. -/
def optionalSearch (cs : List Char) : Option (List Char) :=
  match findSub "optional".toList cs with
  | none => none
  | some p =>
    let j1 := match cs.get? (p - 1) with
              | some c => if c = '(' ∧ p ≠ 0 then p - 1 else p
              | none => p
    let j2 := backWhile (· = ' ') cs j1
    let j3 := match cs.get? (j2 - 1) with
              | some c => if c = ',' ∧ j2 ≠ 0 then j2 - 1 else j2
              | none => j2
    some (cs.take j3)

/-- `_type_optional`: strip `' .'`, then search `_OPTIONAL_RE`; on a match
the type becomes group 1 and the flag is set. -/
def typeOptional (typeStr : String) : String × Bool :=
  let cs := stripChars typeStr.toList [' ', '.']
  match optionalSearch cs with
  | some base => (String.mk base, true)
  | none => (String.mk cs, false)

/-! ### Python literal parsing, for `_guess_enum_val_type`

`_guess_enum_val_type` tries `int(s)`, `float(s)`, `complex(s)` in order
and falls back to `'str'`.  The three CPython string-conversion grammars
are modelled below for base-10 text (the only inputs reaching them are
comma-separated tokens of a docstring enum). -/

/-- CPython `int(s)`: optional surrounding whitespace, an optional sign,
then a non-empty digit string. -/
def pyIntOk (s : String) : Bool :=
  let t := stripChars s.toList pyWsChars
  let digits := match t with
                | c :: rest => if c = '+' ∨ c = '-' then rest else t
                | [] => t
  !digits.isEmpty && digits.all Char.isDigit

/-- Parse an unsigned float numeral prefix: `inf`, `infinity`, `nan`, or
digits with an optional fraction and exponent.  Returns the unconsumed
rest on success.  The input is expected lower-cased. -/
def parseUFloat (cs : List Char) : Option (List Char) :=
  if isPre "infinity".toList cs then some (cs.drop 8)
  else if isPre "inf".toList cs then some (cs.drop 3)
  else if isPre "nan".toList cs then some (cs.drop 3)
  else
    let d1 := cs.takeWhile Char.isDigit
    let r1 := cs.drop d1.length
    let (d2, r2, hasDot) :=
      match r1 with
      | '.' :: rest =>
        let dd := rest.takeWhile Char.isDigit
        (dd, rest.drop dd.length, true)
      | _ => ([], r1, false)
    if d1.isEmpty ∧ (¬ hasDot ∨ d2.isEmpty) then none
    else
      match r2 with
      | 'e' :: rest =>
        let rest2 := match rest with
                     | c :: tl => if c = '+' ∨ c = '-' then tl else rest
                     | [] => rest
        let ed := rest2.takeWhile Char.isDigit
        if ed.isEmpty then none else some (rest2.drop ed.length)
      | _ => some r2

/-- CPython `float(s)`: whitespace-stripped, optional sign, then a full
unsigned float numeral. -/
def pyFloatOk (s : String) : Bool :=
  let t := (stripChars s.toList pyWsChars).map Char.toLower
  let t2 := match t with
            | c :: rest => if c = '+' ∨ c = '-' then rest else t
            | [] => t
  match parseUFloat t2 with
  | some [] => !t2.isEmpty
  | _ => false

/-- Sign-then-unsigned-float helper for the complex grammar; consumes an
optional sign followed by a full unsigned float numeral start. -/
def parseSignedFloat (cs : List Char) : Option (List Char) :=
  let t := match cs with
           | c :: rest => if c = '+' ∨ c = '-' then rest else cs
           | [] => cs
  parseUFloat t

/-- CPython `complex(s)`: whitespace-stripped, optionally wrapped in one
pair of parentheses, then `real`, `imagj`, `real±imagj`, `real±j`, `±j`
or `j` (with no interior spaces). -/
def pyComplexOk (s : String) : Bool :=
  let t0 := (stripChars s.toList pyWsChars).map Char.toLower
  let t := match t0, t0.getLast? with
           | '(' :: mid, some ')' => mid.dropLast
           | _, _ => t0
  let afterSign := match t with
                   | c :: rest => if c = '+' ∨ c = '-' then rest else t
                   | [] => t
  if t.isEmpty then false
  else
    match afterSign with
    | ['j'] => true
    | _ =>
      match parseUFloat afterSign with
      | none => false
      | some rest =>
        match rest with
        | [] => true
        | ['j'] => true
        | c :: rest2 =>
          if c = '+' ∨ c = '-' then
            match rest2 with
            | ['j'] => true
            | _ =>
              match parseUFloat rest2 with
              | some ['j'] => true
              | _ => false
          else false

/-- `_guess_enum_val_type`: try `int`, `float`, `complex` in that order,
and fall back to `'str'`. -/
def guessEnumValType (s : String) : String :=
  if pyIntOk s then "int"
  else if pyFloatOk s then "float"
  else if pyComplexOk s then "complex"
  else "str"

/-! ### Enum extractor -/

/-- Index of the last occurrence of `c` in `cs`, if any. -/
def lastIdxOf (c : Char) (cs : List Char) : Option Nat :=
  (cs.foldl (fun (acc : Nat × Option Nat) a =>
      (acc.1 + 1, if a = c then some acc.1 else acc.2)) (0, none)).2

/-- Worker for `enumSearch`: scan for the leftmost viable `{`. -/
def enumSearchAux : List Char → Option String
  | [] => none
  | c :: rest =>
    if c = '\x7b' then
      let seg := rest.takeWhile (· ≠ '\n')
      match lastIdxOf '\x7d' seg with
      | some j => some (String.mk (seg.take j))
      | none => enumSearchAux rest
    else enumSearchAux rest

/-- `_ENUM_RE = '\{(.*)\}'` under `re.search` with a greedy group:
group 1 runs from the leftmost `{` that is followed (with no intervening
newline) by some `}`, up to the last such `}`. -/
def enumSearch (ts : String) : Option String :=
  enumSearchAux ts.toList

/-- The literal list drawn from the matched brace group: split on commas
and strip quotes and spaces from each piece
(`[_.strip('\'\" ') for _ in m.group(1).split(',')]`). -/
def enumLiterals (inner : String) : List String :=
  (pySplitChar ',' inner).map fun x => String.mk (stripChars x.toList ['\x27', '"', ' '])

/-- The Python values appearing as reflected defaults and enum-choice
attribute elements in this development: `None`, booleans, ints, strings
and the empty tuple (an exact model of the values used by the wrapped
callables; `str()` on each is `pyStr` below). -/
inductive PyVal where
  | none : PyVal
  | bool : Bool → PyVal
  | int : Int → PyVal
  | str : String → PyVal
  | emptyTuple : PyVal
deriving Repr, DecidableEq

/-- The errors raised by the scraper.  `mixedEnum` and `nonDiscreteEnum`
are the two `ValueError`s of `_enum_type`; `enumConflict` is the
`ValueError(_enum_error.format(...))` of `define_input_ports` carrying
the docstring values and lengths and the attribute values and lengths;
`autowrap` is `AutowrapError`; `nameUnpack` is the `ValueError` a
two-target unpacking of `the_name.split(':')` raises when the split does
not have exactly two parts. -/
inductive ScrapeErr where
  | mixedEnum : ScrapeErr
  | nonDiscreteEnum : ScrapeErr
  | enumConflict : String → List String → Nat → List PyVal → Nat → ScrapeErr
  | autowrap : String → ScrapeErr
  | nameUnpack : ScrapeErr
deriving Repr, DecidableEq

/-- `_enum_type`: detect a brace-delimited literal set, guess each
literal's type, and validate homogeneity and discreteness.  The success
triple is `(type_out, is_enum, enum_list)`; in the enum branch `type_out`
is the guessed literal type (`guessed_types[0]`), in the non-enum branch
it is the input unchanged. -/
def enumType (ts : String) : Except ScrapeErr (String × Bool × Option (List String)) :=
  match enumSearch ts with
  | none => .ok (ts, false, none)
  | some inner =>
    let enumList := enumLiterals inner
    let guessed := enumList.map guessEnumValType
    let typeOut := guessed.headD ""
    if ¬ (guessed.drop 1).all (fun t => t = typeOut) then .error .mixedEnum
    else if typeOut ≠ "int" ∧ typeOut ≠ "str" then .error .nonDiscreteEnum
    else .ok (typeOut, true, some enumList)

/-! ### Description truncation -/

/-- `_truncate_description`: keep the first line; when it has more than
`wordCnt` space-separated words, keep only the first `wordCnt` of them.
The source indexes `original_description[0]`; descriptions are non-empty
lists in every scraped docstring, so the empty case defaults to `""`. -/
def truncateDescription (desc : List String) (wordCnt : Nat) : String :=
  let short := desc.headD ""
  let sdWords := pySplitChar ' ' short
  if sdWords.length > wordCnt then
    String.intercalate " " (sdWords.take wordCnt)
  else short

/-- The default of the `short_description_word_count` parameter of
`define_input_ports`. -/
def shortDescriptionWordCount : Nat := 4

/-! ### Data model for the port extractors -/

/-- Python `str()` of a `PyVal`. -/
def pyStr : PyVal → String
  | .none => "None"
  | .bool b => if b then "True" else "False"
  | .int n => toString n
  | .str s => s
  | .emptyTuple => "()"

/-- Equality of two string multisets viewed as sets (`set(..) == set(..)`). -/
def strSetEq (l r : List String) : Bool :=
  l.all r.contains && r.all l.contains

/-- `_enums_equal`: compare `set(str(_) for _ in left)` with
`set(str(_) for _ in right)`; the left side is the docstring literal
list (already strings), the right side the function attribute. -/
def enumsEqual (left : List String) (right : List PyVal) : Bool :=
  strSetEq left (right.map pyStr)

/-- `vt_reserved = ('domain', 'window')`. -/
def vtReserved : List String := ["domain", "window"]

/-- The port-metadata dictionary built by `define_input_ports` for one
input port.  Absent dictionary keys are `none`/`false` defaults. -/
structure PortSpec where
  name : String
  label : String
  docstring : String
  optional : Bool
  signature : String
  default : Option PyVal
  entryType : Option String
  values : Option (List PyVal)
deriving Repr, DecidableEq

/-- The reflected callable as the scraper consumes it:
`kwargDefaults` models `_extract_default_vals` (the trailing defaulted
parameters), and `attrs` models `hasattr`/`getattr` for the author-set
enum-choice attributes (lists of allowed values). -/
structure PyFunc where
  fname : String
  kwargDefaults : List (String × PyVal)
  attrs : List (String × List PyVal)
deriving Repr

/-- The structured docstring record: ordered `Parameters` and `Returns`
sections of `(name, raw_type, description-lines)` triples. -/
structure DocStr where
  Parameters : List (String × String × List String)
  Returns : List (String × String × List String)
deriving Repr

/-! ### `define_input_ports` -/

/-- The body of the inner `for port_name in ...` loop of
`define_input_ports` for one non-empty, stripped `portName0`: build the
port dictionary, attach a default unless the signature is a
container/variant kind, escape reserved names, then reconcile the
docstring enum with a same-named function attribute. -/
def mkInputPort (func : PyFunc) (theName : String)
    (shortDescription : String) (theDescription : List String)
    (isOptional isEnum : Bool) (enumList : List String)
    (normedType : String) (portName0 : String) : Except ScrapeErr PortSpec :=
  let sig := sigMap normedType
  let base : PortSpec :=
    { name := "", label := shortDescription,
      docstring := String.intercalate "\n" theDescription,
      optional := isOptional, signature := sig,
      default := Option.none, entryType := Option.none, values := Option.none }
  let withDefault :=
    match func.kwargDefaults.lookup portName0 with
    | some v =>
      if sig = "basic:List" ∨ sig = "basic:Variant" ∨ sig = "basic:Dictionary" then
        base
      else { base with default := some v, optional := true }
    | Option.none => base
  let portName := if vtReserved.contains portName0 then "_" ++ portName0 else portName0
  let named := { withDefault with name := portName }
  match func.attrs.lookup portName with
  | some fEnums =>
    if isEnum ∧ ¬ enumsEqual enumList fEnums then
      .error (.enumConflict theName enumList enumList.length fEnums fEnums.length)
    else .ok { named with entryType := some "enum", values := some fEnums }
  | Option.none =>
    if isEnum then
      .ok { named with entryType := some "enum", values := some (enumList.map PyVal.str) }
    else .ok named

/-- The `for port_name in (_.strip() for _ in the_name.split(','))` loop:
empty identifiers are skipped silently. -/
def inputPortLoop (func : PyFunc) (theName : String)
    (shortDescription : String) (theDescription : List String)
    (isOptional isEnum : Bool) (enumList : List String)
    (normedType : String) : List String → Except ScrapeErr (List PortSpec)
  | [] => .ok []
  | n :: rest =>
    if n = "" then
      inputPortLoop func theName shortDescription theDescription isOptional
        isEnum enumList normedType rest
    else do
      let p ← mkInputPort func theName shortDescription theDescription
        isOptional isEnum enumList normedType n
      let ps ← inputPortLoop func theName shortDescription theDescription
        isOptional isEnum enumList normedType rest
      .ok (p :: ps)

/-- The split-and-strip of a comma-separated name field. -/
def splitNames (theName : String) : List String :=
  (pySplitChar ',' theName).map fun x => String.mk (stripChars x.toList pyWsChars)

/-- One iteration of the `Parameters` loop of `define_input_ports`:
skip in-place returns, recover `name:type` headers, extract optionality
and enums, demote abused enums, normalize, then emit one port per
comma-separated identifier. -/
def processInputEntry (func : PyFunc) (entry : String × String × List String) :
    Except ScrapeErr (List PortSpec) :=
  let (theName0, theType0, theDescription) := entry
  if theName0 = "output" ∨ theName0 = "out" then .ok []
  else do
    let (theName, theType) ←
      if theType0 = "" ∧ theName0.toList.contains ':' then
        match pySplitChar ':' theName0 with
        | [a, b] => Except.ok (a, b)
        | _ => Except.error ScrapeErr.nameUnpack
      else Except.ok (theName0, theType0)
    let (typeBase0, isOptional) := typeOptional theType
    let (typeBase, isEnum0, enumList0) ← enumType typeBase0
    let demoted :=
      if isEnum0 ∧ typeBase = "str" then
        match normalizeType (String.intercalate " or " (enumList0.getD [])) with
        | some tryNorm => some tryNorm
        | Option.none => Option.none
      else Option.none
    let (isEnum, enumList) :=
      match demoted with
      | some _ => (false, ([] : List String))
      | Option.none => (isEnum0, enumList0.getD [])
    let normedType ←
      match demoted with
      | some n => Except.ok n
      | Option.none =>
        match normalizeType typeBase with
        | some n => Except.ok n
        | Option.none =>
          Except.error (.autowrap
            ("Malformed input type |" ++ theName ++ ": <" ++ theType ++ ">|"))
    let shortDescription := truncateDescription theDescription shortDescriptionWordCount
    inputPortLoop func theName shortDescription theDescription isOptional
      isEnum enumList normedType (splitNames theName)

/-- The `Parameters` loop of `define_input_ports`, in docstring order. -/
def inputEntriesLoop (func : PyFunc) :
    List (String × String × List String) → Except ScrapeErr (List PortSpec)
  | [] => .ok []
  | e :: rest => do
    let ps ← processInputEntry func e
    let rest2 ← inputEntriesLoop func rest
    .ok (ps ++ rest2)

/-- `define_input_ports` with the default description word count. -/
def defineInputPorts (doc : DocStr) (func : PyFunc) : Except ScrapeErr (List PortSpec) :=
  inputEntriesLoop func doc.Parameters

/-! ### `define_output_ports` -/

/-- An output-port dictionary: only `name` and `signature` are set. -/
structure OutPort where
  name : String
  signature : String
deriving Repr, DecidableEq

/-- The name loop of the `Returns` section: an empty identifier raises
`AutowrapError("A Port with no name")`. -/
def outputNameLoop (normedType : String) : List String → Except ScrapeErr (List OutPort)
  | [] => .ok []
  | n :: rest =>
    if n = "" then .error (.autowrap "A Port with no name")
    else do
      let ps ← outputNameLoop normedType rest
      .ok ({ name := n, signature := sigMap normedType } :: ps)

/-- One iteration of the `Returns` loop of `define_output_ports`:
entries marked optional are dropped entirely; note the enum extraction
runs on `the_type`, not on the optional-stripped base. -/
def processOutputEntry (entry : String × String × List String) :
    Except ScrapeErr (List OutPort) :=
  let (theName, theType, _theDescription) := entry
  let (_baseType, isOptional) := typeOptional theType
  if isOptional then .ok []
  else do
    let (typeBase, isEnum0, enumList0) ← enumType theType
    let demoted :=
      if isEnum0 ∧ typeBase = "str" then
        match normalizeType (String.intercalate " or " (enumList0.getD [])) with
        | some tryNorm => some tryNorm
        | Option.none => Option.none
      else Option.none
    let normedType ←
      match demoted with
      | some n => Except.ok n
      | Option.none =>
        match normalizeType typeBase with
        | some n => Except.ok n
        | Option.none =>
          Except.error (.autowrap
            ("Malformed output type |" ++ theName ++ ": <" ++ theType ++ ">|"))
    outputNameLoop normedType (splitNames theName)

/-- The `Returns` loop, in docstring order. -/
def outputEntriesLoop :
    List (String × String × List String) → Except ScrapeErr (List OutPort)
  | [] => .ok []
  | e :: rest => do
    let ps ← processOutputEntry e
    let rest2 ← outputEntriesLoop rest
    .ok (ps ++ rest2)

/-- The fallback scan of `Parameters` for an `output`/`out` entry
(numpy's in-place-operation convention), run when no output port was
produced from `Returns`. -/
def outputFallback :
    List (String × String × List String) → Except ScrapeErr (List OutPort)
  | [] => .ok []
  | (theName, theType, _desc) :: rest =>
    if strLower theName = "output" ∨ strLower theName = "out" then
      let (t1, _opt) := typeOptional theType
      match normalizeType t1 with
      | Option.none => .error (.autowrap "Malformed type")
      | some t2 => do
        let ps ← outputFallback rest
        .ok ({ name := theName, signature := sigMap t2 } :: ps)
    else outputFallback rest

/-- `define_output_ports`: ports from `Returns`, or, when that produced
none, the `output`/`out` fallback over `Parameters`. -/
def defineOutputPorts (doc : DocStr) : Except ScrapeErr (List OutPort) := do
  let ports ← outputEntriesLoop doc.Returns
  if ports.length < 1 then outputFallback doc.Parameters
  else .ok ports

/-! ### Concrete scraping scenarios used by the theorems -/

/-- The `Parameters` section of the `has_defaults` test callable
(`vttools/tests/scrape_test_source.py`), as numpydoc parses it. -/
def hasDefaultsParams : List (String × String × List String) :=
  [("a", "object, optional", ["defaults to None"]),
   ("b", "int, optional", ["defaults to 1"]),
   ("c", "str, optional", ["Defaults to \x27str\x27"]),
   ("d", "tuple, optional", ["Defaults to ()"]),
   ("e", "\x7b\x27a\x27, \x27b\x27, \x27c\x27\x7d", ["An enum"])]

/-- The docstring record of `has_defaults` (no `Returns` section). -/
def hasDefaultsDoc : DocStr :=
  { Parameters := hasDefaultsParams, Returns := [] }

/-- The reflected `has_defaults` callable with its enum-choice attribute
`e` generalised to `eVals` (the source sets `has_defaults.e = ['a', 'b', 'c']`). -/
def hasDefaultsFunc (eVals : List PyVal) : PyFunc :=
  { fname := "has_defaults",
    kwargDefaults :=
      [("a", PyVal.none), ("b", PyVal.int 1), ("c", PyVal.str "str"),
       ("d", PyVal.emptyTuple), ("e", PyVal.none)],
    attrs := [("e", eVals)] }

/-- A reflected callable with no defaults and no attributes. -/
def plainFunc : PyFunc := { fname := "f", kwargDefaults := [], attrs := [] }

/-- The `Parameters` entry for `e` of `has_defaults`. -/
def hasDefaultsEEntry : String × String × List String :=
  ("e", "\x7b\x27a\x27, \x27b\x27, \x27c\x27\x7d", ["An enum"])

/-- The input port scraped for `has_defaults.a` (`object` maps to a
Variant signature, so the `None` default is skipped; the docstring
already marks it optional). -/
def portA : PortSpec :=
  { name := "a", label := "defaults to None", docstring := "defaults to None",
    optional := true, signature := "basic:Variant", default := Option.none,
    entryType := Option.none, values := Option.none }

/-- The input port scraped for `has_defaults.b`. -/
def portB : PortSpec :=
  { name := "b", label := "defaults to 1", docstring := "defaults to 1",
    optional := true, signature := "basic:Integer", default := some (PyVal.int 1),
    entryType := Option.none, values := Option.none }

/-- The input port scraped for `has_defaults.c`. -/
def portC : PortSpec :=
  { name := "c", label := "Defaults to \x27str\x27",
    docstring := "Defaults to \x27str\x27",
    optional := true, signature := "basic:String", default := some (PyVal.str "str"),
    entryType := Option.none, values := Option.none }

/-- The input port scraped for `has_defaults.d` (List signature, so the
`()` default is skipped). -/
def portD : PortSpec :=
  { name := "d", label := "Defaults to ()", docstring := "Defaults to ()",
    optional := true, signature := "basic:List", default := Option.none,
    entryType := Option.none, values := Option.none }

/-- The input port scraped for `has_defaults.e` when the enum-choice
attribute holds `eVals`. -/
def portE (eVals : List PyVal) : PortSpec :=
  { name := "e", label := "An enum", docstring := "An enum", optional := true,
    signature := "basic:String", default := some PyVal.none,
    entryType := some "enum", values := some eVals }

/-- The continuation of the `has_defaults` input-port pipeline after the
port built for `e`: the reduced form of `define_input_ports` on
`hasDefaultsDoc` as a function of the `e` port computation. -/
def c1Tail (m : Except ScrapeErr PortSpec) : Except ScrapeErr (List PortSpec) :=
  Except.bind
    (Except.bind
      (Except.bind
        (Except.bind
          (Except.bind
            (Except.bind m (fun p => Except.ok [p]))
            (fun ps => Except.ok (ps ++ [])))
          (fun r => Except.ok (portD :: r)))
        (fun r => Except.ok (portC :: r)))
      (fun r => Except.ok (portB :: r)))
    (fun r => Except.ok (portA :: r))

/-- An attribute value list for `has_defaults.e` whose length matches the
docstring enum but whose value set differs. -/
def c1AttrVals : List PyVal := [PyVal.str "a", PyVal.str "x", PyVal.str "c"]

/-- A docstring with a container-typed parameter that is not marked
optional, while the callable supplies a default for it. -/
def c3Doc : DocStr :=
  { Parameters := [("d", "tuple", ["container default"])], Returns := [] }

/-- The callable for `c3Doc`: a reflected default for `d`. -/
def c3Func : PyFunc :=
  { fname := "f", kwargDefaults := [("d", PyVal.emptyTuple)], attrs := [] }

/-- The port `define_input_ports` emits for `c3Doc`/`c3Func`. -/
def c3Port : PortSpec :=
  { name := "d", label := "container default", docstring := "container default",
    optional := false, signature := "basic:List", default := Option.none,
    entryType := Option.none, values := Option.none }

/-- A docstring whose only `Returns` entry is optional and whose
`Parameters` contain an `out` entry. -/
def c7Doc : DocStr :=
  { Parameters := [("out", "int", ["in-place result"])],
    Returns := [("a", "int, optional", ["maybe returned"])] }

/-- A docstring declaring an enum for the reserved parameter name
`domain`. -/
def c8Doc : DocStr :=
  { Parameters := [("domain", "\x7b\x27x\x27, \x27y\x27\x7d", ["reserved name"])],
    Returns := [] }

/-- The callable for `c8Doc`: an enum-choice attribute under the
unprefixed name `domain`. -/
def c8Func : PyFunc :=
  { fname := "g", kwargDefaults := [], attrs := [("domain", [PyVal.str "p"])] }

/-- The port `define_input_ports` emits for `c8Doc`/`c8Func`: the name is
escaped, and the docstring enum survives because the attribute lookup
probes `_domain`, not `domain`. -/
def c8Port : PortSpec :=
  { name := "_domain", label := "reserved name", docstring := "reserved name",
    optional := false, signature := "basic:String", default := Option.none,
    entryType := some "enum", values := some [PyVal.str "x", PyVal.str "y"] }

/-- A docstring whose one `Parameters` entry lists the same identifier
twice. -/
def c9Doc : DocStr :=
  { Parameters := [("x, x", "int", ["twice"])], Returns := [] }

/-- The port emitted (twice) for `c9Doc`. -/
def c9Port : PortSpec :=
  { name := "x", label := "twice", docstring := "twice",
    optional := false, signature := "basic:Integer", default := Option.none,
    entryType := Option.none, values := Option.none }

/-- A docstring whose `Parameters` name field has an empty identifier
between two commas. -/
def c10InDoc : DocStr :=
  { Parameters := [("a,,b", "int", ["gap"])], Returns := [] }

/-- The same malformed name field in the `Returns` section. -/
def c10OutDoc : DocStr :=
  { Parameters := [], Returns := [("a,,b", "int", ["gap"])] }

/-- The first port emitted for `c10InDoc`. -/
def c10PortA : PortSpec :=
  { name := "a", label := "gap", docstring := "gap",
    optional := false, signature := "basic:Integer", default := Option.none,
    entryType := Option.none, values := Option.none }

/-- The second port emitted for `c10InDoc`. -/
def c10PortB : PortSpec :=
  { name := "b", label := "gap", docstring := "gap",
    optional := false, signature := "basic:Integer", default := Option.none,
    entryType := Option.none, values := Option.none }

/-! ## Helper lemmas -/

/-- `_guess_enum_val_type` returns one of the four type names. -/
theorem helper_guess_mem (s : String) :
    guessEnumValType s = "int" ∨ guessEnumValType s = "float" ∨
    guessEnumValType s = "complex" ∨ guessEnumValType s = "str" := by
  unfold guessEnumValType
  split_ifs <;> simp

/-- The port built for `has_defaults.e`: a conflict error exactly when
the docstring values and the attribute values differ as string sets. -/
theorem helper_mk_e (eVals : List PyVal) :
    mkInputPort (hasDefaultsFunc eVals) "e" "An enum" ["An enum"]
        false true ["a", "b", "c"] "str" "e" =
      if enumsEqual ["a", "b", "c"] eVals then Except.ok (portE eVals)
      else Except.error (.enumConflict "e" ["a", "b", "c"] 3 eVals eVals.length) := by
  have h0 : mkInputPort (hasDefaultsFunc eVals) "e" "An enum" ["An enum"]
      false true ["a", "b", "c"] "str" "e" =
      if (true = true ∧ ¬ (enumsEqual ["a", "b", "c"] eVals = true)) then
        Except.error (.enumConflict "e" ["a", "b", "c"] 3 eVals eVals.length)
      else Except.ok (portE eVals) := by rfl
  rw [h0]
  by_cases h : enumsEqual ["a", "b", "c"] eVals = true <;> simp [h]

/-- `define_input_ports` on `has_defaults` reduces to `c1Tail` applied to
the port computation for `e` (the first four entries are attribute
independent). -/
theorem helper_c1_pipe (eVals : List PyVal) :
    defineInputPorts hasDefaultsDoc (hasDefaultsFunc eVals) =
      c1Tail (mkInputPort (hasDefaultsFunc eVals) "e" "An enum" ["An enum"]
        false true ["a", "b", "c"] "str" "e") := by rfl

/-- `c1Tail` on a successful `e` port. -/
theorem helper_c1Tail_ok (p : PortSpec) :
    c1Tail (Except.ok p) = Except.ok [portA, portB, portC, portD, p] := rfl

/-- `c1Tail` propagates an error. -/
theorem helper_c1Tail_err (e : ScrapeErr) :
    c1Tail (Except.error e) = Except.error e := rfl

/-! ## Claims -/

/-- C1.  The claim says the enum-conflict error fires iff the docstring
and attribute list lengths differ; the code compares the *string sets*
(`_enums_equal`): here both lists have length 3 yet the conflict error is
raised, because the value sets differ. -/
theorem c1_counterexample :
    (["a", "b", "c"] : List String).length = c1AttrVals.length ∧
    defineInputPorts hasDefaultsDoc (hasDefaultsFunc c1AttrVals) =
      Except.error (.enumConflict "e" ["a", "b", "c"] 3 c1AttrVals 3) :=
  ⟨rfl, rfl⟩

/-- C1 (amended).  For the `has_defaults` scrape with attribute values
`eVals`: the enum-conflict error is raised iff the docstring values and
`str()`-images of the attribute values differ as sets; when they agree,
processing succeeds and the `e` port carries exactly the attribute's
values. -/
theorem c1_theorem : ∀ eVals : List PyVal,
    (defineInputPorts hasDefaultsDoc (hasDefaultsFunc eVals) =
        Except.error (.enumConflict "e" ["a", "b", "c"] 3 eVals eVals.length) ↔
      enumsEqual ["a", "b", "c"] eVals = false) ∧
    (enumsEqual ["a", "b", "c"] eVals = true →
      defineInputPorts hasDefaultsDoc (hasDefaultsFunc eVals) =
        Except.ok [portA, portB, portC, portD, portE eVals]) := by
  intro eVals
  rw [helper_c1_pipe, helper_mk_e]
  by_cases h : enumsEqual ["a", "b", "c"] eVals = true
  · rw [if_pos h]
    simp [helper_c1Tail_ok, h]
  · rw [if_neg h]
    simp only [helper_c1Tail_err]
    simp [Bool.not_eq_true] at h
    simp [h]

/-- C1 witness: the spec's end-to-end example, attribute
`e = ['a', 'b', 'c']` matching the docstring enum. -/
theorem c1_witness :
    enumsEqual ["a", "b", "c"] [PyVal.str "a", PyVal.str "b", PyVal.str "c"] = true ∧
    defineInputPorts hasDefaultsDoc
        (hasDefaultsFunc [PyVal.str "a", PyVal.str "b", PyVal.str "c"]) =
      Except.ok [portA, portB, portC, portD,
        portE [PyVal.str "a", PyVal.str "b", PyVal.str "c"]] :=
  ⟨rfl, (c1_theorem [PyVal.str "a", PyVal.str "b", PyVal.str "c"]).2 rfl⟩

/-- C2.  The precedence order is exactly the fixed list, and the compound
phrase resolutions behave as specified: `float or int` resolves to
`float`, `scalar or sequence of scalars` to `seq`, `int or scalar` to
`scalar`, and `aardvark` is unresolvable. -/
theorem c2_theorem :
    precedenceList = ["list", "tuple", "seq", "dict", "array", "matrix", "dtype",
      "str", "scalar", "complex", "float", "int", "bool", "file", "callable",
      "object"] ∧
    normalizeType "float or int" = some "float" ∧
    normalizeType "scalar or sequence of scalars" = some "seq" ∧
    normalizeType "int or scalar" = some "scalar" ∧
    normalizeType "aardvark" = Option.none :=
  ⟨rfl, rfl, rfl, rfl, rfl⟩

/-- C4.  The claim says `normalize` is stable on every canonical name of
the closed taxonomy; it fails on `seq`: the `seq` pattern only matches
the word `sequence`, no other pattern matches `seq`, and the normalizer
returns the failure signal on the lexicon member `seq` itself. -/
theorem c4_counterexample :
    "seq" ∈ precedenceList ∧ normalizeType "seq" = Option.none :=
  ⟨by simp [precedenceList], rfl⟩

/-- C4 (amended).  `normalize` is stable on the canonical names of all
categories except `seq` (whose name is not matched by any pattern). -/
theorem c4_theorem :
    normalizeType "object" = some "object" ∧
    normalizeType "array" = some "array" ∧
    normalizeType "matrix" = some "matrix" ∧
    normalizeType "list" = some "list" ∧
    normalizeType "tuple" = some "tuple" ∧
    normalizeType "dtype" = some "dtype" ∧
    normalizeType "bool" = some "bool" ∧
    normalizeType "file" = some "file" ∧
    normalizeType "scalar" = some "scalar" ∧
    normalizeType "float" = some "float" ∧
    normalizeType "int" = some "int" ∧
    normalizeType "complex" = some "complex" ∧
    normalizeType "dict" = some "dict" ∧
    normalizeType "str" = some "str" ∧
    normalizeType "callable" = some "callable" :=
  ⟨rfl, rfl, rfl, rfl, rfl, rfl, rfl, rfl, rfl, rfl, rfl, rfl, rfl, rfl, rfl⟩

/-- C5.  The enum extractor infers literal types by trying int, float,
complex and falling back to string; on a brace match it raises the
mixed-enum error exactly when the inferred types are not all identical,
and the non-discrete error exactly when the (identical) inferred type is
float or complex; `\x7bTrue, False, Maybe\x7d` is a legal string enum,
`\x7b12.5, 5.3\x7d` is non-discrete, `\x7btrue, FALSE, 452\x7d` is
mixed. -/
theorem c5_theorem :
    (∀ t inner hd tl, enumSearch t = some inner →
      enumLiterals inner = hd :: tl →
      ((enumType t = .error .mixedEnum ↔
          ∃ a ∈ tl, guessEnumValType a ≠ guessEnumValType hd) ∧
       (enumType t = .error .nonDiscreteEnum ↔
          ((∀ a ∈ tl, guessEnumValType a = guessEnumValType hd) ∧
           (guessEnumValType hd = "float" ∨ guessEnumValType hd = "complex"))))) ∧
    enumType "\x7bTrue, False, Maybe\x7d" =
      .ok ("str", true, some ["True", "False", "Maybe"]) ∧
    enumType "\x7b12.5, 5.3\x7d" = .error .nonDiscreteEnum ∧
    enumType "\x7btrue, FALSE, 452\x7d" = .error .mixedEnum ∧
    guessEnumValType "True" = "str" ∧ guessEnumValType "False" = "str" := by
  refine ⟨?_, rfl, rfl, rfl, rfl, rfl⟩
  intro t inner hd tl h1 h2
  simp only [enumType, h1, h2]
  by_cases hall : ∀ a ∈ tl, guessEnumValType a = guessEnumValType hd
  · have hAllB : (((hd :: tl).map guessEnumValType).drop 1).all
        (fun x => decide (x = ((hd :: tl).map guessEnumValType).headD "")) = true := by
      simp [List.all_eq_true]
      intro a ha
      exact hall a ha
    simp only [hAllB]
    rcases helper_guess_mem hd with hg | hg | hg | hg <;>
      simp [hg, hall] <;> exact fun x hx => hg ▸ hall x hx
  · have hAllB : (((hd :: tl).map guessEnumValType).drop 1).all
        (fun x => decide (x = ((hd :: tl).map guessEnumValType).headD "")) = false := by
      rw [List.all_eq_false]
      push_neg at hall
      rcases hall with ⟨a, ha, hne⟩
      exact ⟨guessEnumValType a, by simp; exact ⟨a, ha, rfl⟩, by simp [hne]⟩
    simp only [hAllB]
    push_neg at hall
    rcases hall with ⟨a, ha, hne⟩
    simp
    constructor
    · exact ⟨a, ha, hne⟩
    · intro hforall
      exact absurd (hforall a ha) hne

/-- C5 witness: the non-discrete example instantiates the general part. -/
theorem c5_witness :
    enumSearch "\x7b12.5, 5.3\x7d" = some "12.5, 5.3" ∧
    enumLiterals "12.5, 5.3" = "12.5" :: ["5.3"] ∧
    (enumType "\x7b12.5, 5.3\x7d" = .error .nonDiscreteEnum ↔
      ((∀ a ∈ ["5.3"], guessEnumValType a = guessEnumValType "12.5") ∧
       (guessEnumValType "12.5" = "float" ∨ guessEnumValType "12.5" = "complex"))) :=
  ⟨rfl, rfl, (c5_theorem.1 "\x7b12.5, 5.3\x7d" "12.5, 5.3" "12.5" ["5.3"] rfl rfl).2⟩

/-- C6.  The claim says a passing brace-delimited literal set returns the
raw input unchanged as the first component; the code returns the guessed
literal type instead: on `\x7b'a', 'b'\x7d` the first component is
`"str"`, not the raw input. -/
theorem c6_counterexample :
    enumType "\x7b\x27a\x27, \x27b\x27\x7d" = .ok ("str", true, some ["a", "b"]) ∧
    "str" ≠ "\x7b\x27a\x27, \x27b\x27\x7d" :=
  ⟨rfl, by decide⟩

/-- C6 (amended).  The raw input is returned unchanged only in the
non-enum case; when a legal enum is detected the first component is the
inferred literal-type name, which is `int` or `str`. -/
theorem c6_theorem :
    (∀ t, enumSearch t = Option.none → enumType t = .ok (t, false, Option.none)) ∧
    (∀ t b v, enumType t = .ok (b, true, v) → b = "int" ∨ b = "str") := by
  constructor
  · intro t h
    simp [enumType, h]
  · intro t b v h
    unfold enumType at h
    cases he : enumSearch t with
    | none => rw [he] at h; simp at h
    | some inner =>
      rw [he] at h
      dsimp only at h
      split_ifs at h with h1 h2
      have h3 := Except.ok.inj h
      injection h3 with hb h4
      push_neg at h2
      by_cases hi : (List.map guessEnumValType (enumLiterals inner)).headD "" = "int"
      · left; rw [← hb, hi]
      · right; rw [← hb]; exact h2 hi

/-- C6 witness: both parts at concrete inputs. -/
theorem c6_witness :
    enumSearch "array" = Option.none ∧
    enumType "array" = .ok ("array", false, Option.none) ∧
    enumType "\x7b1, 2\x7d" = .ok ("int", true, some ["1", "2"]) ∧
    ("int" = "int" ∨ "int" = "str") :=
  ⟨rfl, c6_theorem.1 "array" rfl, rfl,
   c6_theorem.2 "\x7b1, 2\x7d" "int" (some ["1", "2"]) rfl⟩

/-- C3.  The claim says container-category ports with a reflected default
are still marked optional; the code leaves the docstring optionality
untouched in that branch: `d : tuple` (not optional) with default `()`
yields a port with no default and `optional = false`. -/
theorem c3_counterexample :
    defineInputPorts c3Doc c3Func = .ok [c3Port] ∧
    c3Port.signature = "basic:List" ∧
    c3Func.kwargDefaults.lookup "d" = some PyVal.emptyTuple ∧
    c3Port.default = Option.none ∧
    c3Port.optional = false :=
  ⟨rfl, rfl, rfl, rfl, rfl⟩

/-- C3 (amended).  When a reflected default exists for the port name, a
container/variant signature suppresses the default *and leaves the
optional flag as the docstring's*, while any other signature attaches
the default and forces the port optional. -/
theorem c3_theorem :
    ∀ (func : PyFunc) (theName sd : String) (desc : List String)
      (isOpt isEnum : Bool) (eList : List String) (nt pn : String)
      (v : PyVal) (p : PortSpec),
    func.kwargDefaults.lookup pn = some v →
    mkInputPort func theName sd desc isOpt isEnum eList nt pn = .ok p →
    ((sigMap nt = "basic:List" ∨ sigMap nt = "basic:Variant" ∨
        sigMap nt = "basic:Dictionary") →
       p.default = Option.none ∧ p.optional = isOpt) ∧
    (¬ (sigMap nt = "basic:List" ∨ sigMap nt = "basic:Variant" ∨
        sigMap nt = "basic:Dictionary") →
       p.default = some v ∧ p.optional = true) := by
  intro func theName sd desc isOpt isEnum eList nt pn v p hl hmk
  unfold mkInputPort at hmk
  dsimp only at hmk
  rw [hl] at hmk
  dsimp only at hmk
  by_cases hc : (sigMap nt = "basic:List" ∨ sigMap nt = "basic:Variant" ∨
      sigMap nt = "basic:Dictionary")
  · rw [if_pos hc] at hmk
    refine ⟨fun _ => ?_, fun hnc => absurd hc hnc⟩
    split at hmk
    all_goals split_ifs at hmk
    all_goals first
      | exact Except.noConfusion hmk
      | (injection hmk with h; subst h; exact ⟨rfl, rfl⟩)
  · rw [if_neg hc] at hmk
    refine ⟨fun hcc => absurd hcc hc, fun _ => ?_⟩
    split at hmk
    all_goals split_ifs at hmk
    all_goals first
      | exact Except.noConfusion hmk
      | (injection hmk with h; subst h; exact ⟨rfl, rfl⟩)

/-- C3 witness: the container case at the `c3Doc` scenario. -/
theorem c3_witness :
    c3Func.kwargDefaults.lookup "d" = some PyVal.emptyTuple ∧
    mkInputPort c3Func "d" "container default" ["container default"]
        false false [] "tuple" "d" = .ok c3Port ∧
    (c3Port.default = Option.none ∧ c3Port.optional = false) :=
  ⟨rfl, rfl,
   (c3_theorem c3Func "d" "container default" ["container default"]
      false false [] "tuple" "d" PyVal.emptyTuple c3Port rfl rfl).1 (Or.inl rfl)⟩

/-- C7.  The claim says the `output`/`out` fallback fires exactly when
the `Returns` section is absent or empty; the code fires it whenever
*zero output ports were produced*, which also happens when every
`Returns` entry is optional: here `Returns` is non-empty yet the
fallback port is emitted. -/
theorem c7_counterexample :
    c7Doc.Returns ≠ [] ∧
    defineOutputPorts c7Doc =
      .ok [{ name := "out", signature := "basic:Integer" }] :=
  ⟨by simp [c7Doc], rfl⟩

/-- C7 (amended).  Optional `Returns` entries are dropped entirely, and
the fallback scan of `Parameters` runs exactly when the `Returns` loop
produced zero ports (absent, empty, or all entries optional). -/
theorem c7_theorem :
    (∀ doc ports, outputEntriesLoop doc.Returns = .ok ports → ports ≠ [] →
       defineOutputPorts doc = .ok ports) ∧
    (∀ doc, outputEntriesLoop doc.Returns = .ok [] →
       defineOutputPorts doc = outputFallback doc.Parameters) ∧
    (∀ nm ty d, (typeOptional ty).2 = true →
       processOutputEntry (nm, ty, d) = .ok []) := by
  refine ⟨?_, ?_, ?_⟩
  · intro doc ports h hne
    cases ports with
    | nil => exact absurd rfl hne
    | cons a l =>
      simp only [defineOutputPorts]
      rw [h]
      rfl
  · intro doc h
    simp only [defineOutputPorts]
    rw [h]
    rfl
  · intro nm ty d h
    unfold processOutputEntry
    dsimp only
    rcases hty : typeOptional ty with ⟨b, o⟩
    rw [hty] at h
    simp at h
    simp [h]

/-- C7 witness: the optional-entry drop at a concrete entry. -/
theorem c7_witness :
    (typeOptional "int, optional").2 = true ∧
    processOutputEntry ("a", "int, optional", ["maybe returned"]) = .ok [] :=
  ⟨rfl, c7_theorem.2.2 "a" "int, optional" ["maybe returned"] rfl⟩

/-- C8.  The claim says both source lookups use the unprefixed
identifier; the escape rename happens *before* the attribute probe, so
the enum-override lookup uses the prefixed name: with an attribute under
the unprefixed name `domain` and a conflicting docstring enum, no
conflict is raised and the docstring values survive on the emitted
`_domain` port. -/
theorem c8_counterexample :
    defineInputPorts c8Doc c8Func = .ok [c8Port] ∧
    c8Port.name = "_domain" ∧
    c8Port.values = some [PyVal.str "x", PyVal.str "y"] ∧
    c8Func.attrs.lookup "domain" = some [PyVal.str "p"] ∧
    c8Func.attrs.lookup "_domain" = Option.none :=
  ⟨rfl, rfl, rfl, rfl, rfl⟩

/-- C8 (amended).  For a reserved port name the emitted name carries the
escape prefix, the default-value lookup still uses the unprefixed
identifier, but the enum-override attribute lookup uses the *prefixed*
name. -/
theorem c8_theorem :
    ∀ (func : PyFunc) (theName sd : String) (desc : List String)
      (isOpt isEnum : Bool) (eList : List String) (nt pn : String)
      (p : PortSpec),
    vtReserved.contains pn = true →
    mkInputPort func theName sd desc isOpt isEnum eList nt pn = .ok p →
    p.name = "_" ++ pn ∧
    p.default = (match func.kwargDefaults.lookup pn with
                 | some v =>
                   if sigMap nt = "basic:List" ∨ sigMap nt = "basic:Variant" ∨
                      sigMap nt = "basic:Dictionary"
                   then Option.none else some v
                 | Option.none => Option.none) ∧
    p.values = (match func.attrs.lookup ("_" ++ pn) with
                | some fe => some fe
                | Option.none =>
                  if isEnum then some (eList.map PyVal.str) else Option.none) := by
  intro func theName sd desc isOpt isEnum eList nt pn p hres hmk
  unfold mkInputPort at hmk
  dsimp only at hmk
  rw [hres] at hmk
  rw [if_pos rfl] at hmk
  cases hkd : List.lookup pn func.kwargDefaults with
  | none =>
    rw [hkd] at hmk
    dsimp only at hmk
    cases ha : List.lookup ("_" ++ pn) func.attrs with
    | none =>
      rw [ha] at hmk
      dsimp only at hmk
      split_ifs at hmk with he
      all_goals first
        | exact Except.noConfusion hmk
        | (injection hmk with h; subst h; simp [*])
    | some fe =>
      rw [ha] at hmk
      dsimp only at hmk
      split_ifs at hmk with he
      all_goals first
        | exact Except.noConfusion hmk
        | (injection hmk with h; subst h; simp [*])
  | some v =>
    rw [hkd] at hmk
    dsimp only at hmk
    by_cases hc : (sigMap nt = "basic:List" ∨ sigMap nt = "basic:Variant" ∨
        sigMap nt = "basic:Dictionary")
    · rw [if_pos hc] at hmk
      cases ha : List.lookup ("_" ++ pn) func.attrs with
      | none =>
        rw [ha] at hmk
        dsimp only at hmk
        split_ifs at hmk with he
        all_goals first
          | exact Except.noConfusion hmk
          | (injection hmk with h; subst h; simp [*])
      | some fe =>
        rw [ha] at hmk
        dsimp only at hmk
        split_ifs at hmk with he
        all_goals first
          | exact Except.noConfusion hmk
          | (injection hmk with h; subst h; simp [*])
    · rw [if_neg hc] at hmk
      cases ha : List.lookup ("_" ++ pn) func.attrs with
      | none =>
        rw [ha] at hmk
        dsimp only at hmk
        split_ifs at hmk with he
        all_goals first
          | exact Except.noConfusion hmk
          | (injection hmk with h; subst h; simp [*])
      | some fe =>
        rw [ha] at hmk
        dsimp only at hmk
        split_ifs at hmk with he
        all_goals first
          | exact Except.noConfusion hmk
          | (injection hmk with h; subst h; simp [*])

/-- C8 witness: the reserved name `domain` at the `c8Doc` scenario. -/
theorem c8_witness :
    vtReserved.contains "domain" = true ∧
    mkInputPort c8Func "domain" "reserved name" ["reserved name"]
        false true ["x", "y"] "str" "domain" = .ok c8Port ∧
    c8Port.name = "_" ++ "domain" :=
  ⟨rfl, rfl,
   (c8_theorem c8Func "domain" "reserved name" ["reserved name"]
      false true ["x", "y"] "str" "domain" c8Port rfl rfl).1⟩

/-- C9.  The claim says emitted port names are pairwise distinct within
each list; no uniqueness check exists: a `Parameters` name field listing
`x` twice yields two ports with the same name and no error. -/
theorem c9_counterexample :
    defineInputPorts c9Doc plainFunc = .ok [c9Port, c9Port] ∧
    c9Port.name = "x" :=
  ⟨rfl, rfl⟩

/-- C9 (amended).  Port order follows docstring declaration order (the
entry loop concatenates per-entry ports in order), but name uniqueness
is not enforced: duplicate names can be emitted without error. -/
theorem c9_theorem :
    (∀ (func : PyFunc) (e : String × String × List String) rest ps qs,
       processInputEntry func e = .ok ps →
       inputEntriesLoop func rest = .ok qs →
       inputEntriesLoop func (e :: rest) = .ok (ps ++ qs)) ∧
    (∃ (doc : DocStr) (func : PyFunc) (ports : List PortSpec),
       defineInputPorts doc func = .ok ports ∧
       ∃ i j : Fin ports.length, i.val ≠ j.val ∧
         (ports.get i).name = (ports.get j).name) := by
  constructor
  · intro func e rest ps qs h1 h2
    simp only [inputEntriesLoop]
    rw [h1, h2]
    rfl
  · refine ⟨c9Doc, plainFunc, [c9Port, c9Port], rfl,
      ⟨0, by decide⟩, ⟨1, by decide⟩, by decide, rfl⟩

/-- C9 witness: the concatenation step at the duplicate-name entry. -/
theorem c9_witness :
    processInputEntry plainFunc ("x, x", "int", ["twice"]) = .ok [c9Port, c9Port] ∧
    inputEntriesLoop plainFunc [] = .ok [] ∧
    inputEntriesLoop plainFunc [("x, x", "int", ["twice"])] =
      .ok ([c9Port, c9Port] ++ []) :=
  ⟨rfl, rfl,
   c9_theorem.1 plainFunc ("x, x", "int", ["twice"]) [] [c9Port, c9Port] [] rfl rfl⟩

/-- C10.  Empty identifiers in a comma-separated name field are treated
asymmetrically: the input loop silently skips them (a trailing comma is
harmless), while the output loop raises `AutowrapError`, failing the
whole scrape: shown generally on the two name loops and end-to-end on
`a,,b`. -/
theorem c10_theorem :
    (∀ (func : PyFunc) (theName sd : String) (desc : List String)
       (isOpt isEnum : Bool) (eList : List String) (nt : String)
       (names : List String),
       inputPortLoop func theName sd desc isOpt isEnum eList nt ("" :: names) =
       inputPortLoop func theName sd desc isOpt isEnum eList nt names) ∧
    (∀ nt names, "" ∈ names →
       outputNameLoop nt names = .error (.autowrap "A Port with no name")) ∧
    defineInputPorts c10InDoc plainFunc = .ok [c10PortA, c10PortB] ∧
    defineOutputPorts c10OutDoc = .error (.autowrap "A Port with no name") := by
  refine ⟨?_, ?_, rfl, rfl⟩
  · intro func theName sd desc isOpt isEnum eList nt names
    rfl
  · intro nt names hmem
    induction names with
    | nil => cases hmem
    | cons a l ih =>
      by_cases ha : a = ""
      · subst ha; simp [outputNameLoop]
      · cases hmem with
        | head => exact absurd rfl ha
        | tail _ h =>
          simp only [outputNameLoop]
          rw [if_neg ha, ih h]
          rfl

/-- C10 witness: the output-side raise at the `a,,b` name list. -/
theorem c10_witness :
    ("" ∈ ["a", "", "b"]) ∧
    outputNameLoop "int" ["a", "", "b"] =
      .error (.autowrap "A Port with no name") :=
  ⟨by simp, c10_theorem.2.1 "int" ["a", "", "b"] (by simp)⟩

end VTTools
